import Mathlib

set_option linter.unusedSectionVars false

/-!
Verification of the Hasegawa-Wakatani plasma stepping kernel
(`phi/physics/plasma.py`) against its design specification.

Conventions of the shallow embedding:

* A 2D grid of samples is a total function `ℕ → ℕ → α` together with its
  logical height `H` and width `W` carried separately; a 3D stack is
  `ℕ → ℕ → ℕ → α` with sizes `K H W` (axis order z, y, x).  The singleton
  batch and channel axes of the Python arrays (`(1, H, W, 1)` resp.
  `(1, K, H, W, 1)`) are elided: `data[0, ..., 0]` is the grid itself, and
  the z-to-batch `reshape` of the step functions is the identity on values.
* Machine floats are modelled two ways: exactly, by `ℚ` (used for the
  algebraic and dataflow claims, which the spec states for exact
  arithmetic), and by the type `FP` below, which carries the IEEE special
  values `inf`, `-inf`, `nan` with the exact rational values in between
  (used where division by a zero sum matters).
* Fallible code is `Except String`.
-/

section GridOps

variable {α : Type} [Add α] [Sub α] [Mul α] [Div α] [Zero α] [One α]
variable [OfNat α 2] [OfNat α 4] [OfNat α 12]

/-- Sum `f 0 + f 1 + ... + f (n-1)` (the order-insensitive exact model of
`np.sum` over one axis). -/
def natSum (f : ℕ → α) : ℕ → α
  | 0 => 0
  | n + 1 => natSum f n + f n

/-- `np.sum` over a 2D array of logical shape `(H, W)`. -/
def natSum2 (H W : ℕ) (g : ℕ → ℕ → α) : α :=
  natSum (fun i => natSum (g i) W) H

/-- `np.sum` over a 3D array of logical shape `(K, H, W)`. -/
def natSum3 (K H W : ℕ) (g : ℕ → ℕ → ℕ → α) : α :=
  natSum (fun k => natSum2 H W (g k)) K

/-- `periodic_padding` (plasma.py line 397-398) on a 2D array of shape
`(H, W)`: `np.pad(A, 1, mode='wrap')`.  Cell `(i, j)` of the padded
`(H+2, W+2)` array is cell `((i-1) mod H, (j-1) mod W)` of `A`; the
index shift is written `i + H - 1` to stay in `ℕ`. -/
def periodic_padding (H W : ℕ) (A : ℕ → ℕ → α) : ℕ → ℕ → α :=
  fun i j => A ((i + H - 1) % H) ((j + W - 1) % W)

/-- `periodic_padding` applied to a 3D array (as in `periodic_arakawa_3d`):
`np.pad` with width 1 wraps **all three** axes. -/
def periodic_padding3 (K H W : ℕ) (A : ℕ → ℕ → ℕ → α) : ℕ → ℕ → ℕ → α :=
  fun k i j => A ((k + K - 1) % K) ((i + H - 1) % H) ((j + W - 1) % W)

/-- `arakawa_vec` (plasma.py lines 357-366).  The inputs are the padded
`(H+2, W+2)` arrays; output cell `(i, j)` of the `(H, W)` result reads the
slices `zeta[2:, 1:-1]` etc. at `(i, j)`, i.e. the padded arrays at the
offsets written below.  `d**2` is written `d * d`. -/
def arakawa_vec (zeta psi : ℕ → ℕ → α) (d : α) : ℕ → ℕ → α :=
  fun i j =>
    (zeta (i+2) (j+1) * (psi (i+1) (j+2) - psi (i+1) j + psi (i+2) (j+2) - psi (i+2) j)
      - zeta i (j+1) * (psi (i+1) (j+2) - psi (i+1) j + psi i (j+2) - psi i j)
      - zeta (i+1) (j+2) * (psi (i+2) (j+1) - psi i (j+1) + psi (i+2) (j+2) - psi i (j+2))
      + zeta (i+1) j * (psi (i+2) (j+1) - psi i (j+1) + psi (i+2) j - psi i j)
      + zeta (i+2) j * (psi (i+2) (j+1) - psi (i+1) j)
      + zeta (i+2) (j+2) * (psi (i+1) (j+2) - psi (i+2) (j+1))
      - zeta i (j+2) * (psi (i+1) (j+2) - psi i (j+1))
      - zeta i j * (psi i (j+1) - psi (i+1) j)) / (4 * (d * d))

/-- `arakawa_stencil` (plasma.py lines 345-354), a numba `@stencil` of
neighbourhood radius 1: applied to an `(H+2, W+2)` array it produces an
`(H+2, W+2)` array whose border cells (where an offset would leave the
array) are 0 and whose interior cells hold the 8-term combination. -/
def arakawa_stencil (H W : ℕ) (zeta psi : ℕ → ℕ → α) : ℕ → ℕ → α :=
  fun i j =>
    if 1 ≤ i ∧ i ≤ H ∧ 1 ≤ j ∧ j ≤ W then
      (zeta (i+1) j * (psi i (j+1) - psi i (j-1) + psi (i+1) (j+1) - psi (i+1) (j-1))
        - zeta (i-1) j * (psi i (j+1) - psi i (j-1) + psi (i-1) (j+1) - psi (i-1) (j-1))
        - zeta i (j+1) * (psi (i+1) j - psi (i-1) j + psi (i+1) (j+1) - psi (i-1) (j+1))
        + zeta i (j-1) * (psi (i+1) j - psi (i-1) j + psi (i+1) (j-1) - psi (i-1) (j-1))
        + zeta (i+1) (j-1) * (psi (i+1) j - psi i (j-1))
        + zeta (i+1) (j+1) * (psi i (j+1) - psi (i+1) j)
        - zeta (i-1) (j+1) * (psi i (j+1) - psi (i-1) j)
        - zeta (i-1) (j-1) * (psi (i-1) j - psi i (j-1)))
    else 0

/-- `periodic_arakawa` (plasma.py lines 373-378): pad both inputs of shape
`(H, W)` by one wrapped cell, then apply `arakawa_vec` (which divides by
`4·d²`). -/
def periodic_arakawa (H W : ℕ) (zeta psi : ℕ → ℕ → α) (d : α) : ℕ → ℕ → α :=
  arakawa_vec (periodic_padding H W zeta) (periodic_padding H W psi) d

/-- `arakawa_3d` (plasma.py lines 381-386): apply `arakawa_stencil` to each
z-slice of the `(K, H+2, W+2)` inputs, then divide by `12·d²`. -/
def arakawa_3d (H W : ℕ) (z p : ℕ → ℕ → ℕ → α) (d : α) : ℕ → ℕ → ℕ → α :=
  fun k i j => arakawa_stencil H W (z k) (p k) i j / (12 * (d * d))

/-- `periodic_arakawa_3d` (plasma.py lines 389-394): pad the `(K, H, W)`
inputs on **all** axes, drop the z padding again (`z[1:-1, ...]`), run
`arakawa_3d` — note the call forwards **no** spacing, so `arakawa_3d`
uses its default `d = 1` — and keep the interior `[:, 1:-1, 1:-1]`. -/
def periodic_arakawa_3d (K H W : ℕ) (zeta psi : ℕ → ℕ → ℕ → α) (_d : α) :
    ℕ → ℕ → ℕ → α :=
  fun k i j =>
    arakawa_3d H W
      (fun a b c => periodic_padding3 K H W zeta (a + 1) b c)
      (fun a b c => periodic_padding3 K H W psi (a + 1) b c)
      1 k (i + 1) (j + 1)

/-- Modelled from the spec: `phi.math.nd.laplace` on a 2D array (code of
this repository not under `src/`).  §4.4: "the Laplacian is the standard
5-point (2D) ... stencil with periodic wrap". -/
def laplace2_wrap (H W : ℕ) (g : ℕ → ℕ → α) : ℕ → ℕ → α :=
  fun i j =>
    g ((i + 1) % H) j + g ((i + H - 1) % H) j
      + g i ((j + 1) % W) + g i ((j + W - 1) % W) - 4 * g i j

/-- Modelled from the spec: `phi.math.nd.laplace(..., axes=[0], padding='wrap')`
and `CenteredGrid.laplace(axes=[0])` on a `(K, H, W)` stack (code of this
repository not under `src/`).  §4.4: "axis-restricted stencil with periodic
wrap", i.e. `f[k+1] + f[k-1] - 2·f[k]` along the field-aligned axis. -/
def laplaceZ_wrap (K : ℕ) (g : ℕ → ℕ → ℕ → α) : ℕ → ℕ → ℕ → α :=
  fun k i j => g ((k + 1) % K) i j + g ((k + K - 1) % K) i j - 2 * g k i j

/-- Modelled from the spec: the y-component of
`CenteredGrid.gradient(difference='central', padding='wrap')` (code of this
repository not under `src/`).  §4.4: "central differences are evaluated as
`(f[i+1]-f[i-1])/2` per axis with periodic index wrap". -/
def gradY_wrap (H : ℕ) (g : ℕ → ℕ → α) : ℕ → ℕ → α :=
  fun i j => (g ((i + 1) % H) j - g ((i + H - 1) % H) j) / 2

/-- Modelled from the spec: the x-component of
`CenteredGrid.gradient(difference='central', padding='wrap')` (code of this
repository not under `src/`). -/
def gradX_wrap (W : ℕ) (g : ℕ → ℕ → α) : ℕ → ℕ → α :=
  fun i j => (g i ((j + 1) % W) - g i ((j + W - 1) % W)) / 2

/-- `euler` (plasma.py lines 333-334): `x + dx * dt`, applied pointwise to
grids of samples. -/
def eulerG (x dx : ℕ → ℕ → α) (dt : α) : ℕ → ℕ → α :=
  fun i j => x i j + dx i j * dt

/-- `euler` on a 3D stack. -/
def eulerG3 (x dx : ℕ → ℕ → ℕ → α) (dt : α) : ℕ → ℕ → ℕ → α :=
  fun k i j => x k i j + dx k i j * dt

end GridOps

section Diffuse

/-- The dynamically typed values that flow through `diffuse`
(plasma.py lines 288-314).  `field2`/`field3` are `CenteredGrid`s of
spatial rank 2 resp. 3 (their `.data[0, ..., 0]` is the stored grid);
`scalar` is a Python number (the literal `0` of the `N == 0` branch);
`arr2`/`arr3` are raw numpy arrays, which is what `diffuse` returns. -/
inductive Val (α : Type) : Type where
  | scalar : α → Val α
  | field2 : (H W : ℕ) → (ℕ → ℕ → α) → Val α
  | field3 : (K H W : ℕ) → (ℕ → ℕ → ℕ → α) → Val α
  | arr2 : (H W : ℕ) → (ℕ → ℕ → α) → Val α
  | arr3 : (K H W : ℕ) → (ℕ → ℕ → ℕ → α) → Val α

variable {α : Type} [Add α] [Sub α] [Mul α] [Div α] [Zero α] [One α]
variable [OfNat α 2] [OfNat α 4] [OfNat α 12]

/-- `diffuse` (plasma.py lines 288-314).  Control flow of the source:

* `if N == 0: ret_field = 0` — the argument is never touched, the scalar
  `0` is returned (times `nu`);
* otherwise `ret_field = field.data[0, ..., 0]`; a Python `int` has no
  `.data` (AttributeError), and on a raw numpy array `.data` is a
  memoryview which does not support the `[0, ..., 0]` subscript
  (TypeError);
* then `for _ in range(N)` — **empty for `N < 0`**, so a negative order
  returns the unmodified data;
* inside the loop, `if field.rank == 3:` the call
  `math.nd.laplace(ret_field, axes=axes, padding='wrap')` reads the
  **undefined name `axes`** (NameError); the rank-2 branch applies
  `math.nd.laplace(ret_field)` (modelled per spec §4.4 as the 5-point
  periodic-wrap Laplacian, see `laplace2_wrap`);
* finally the result is multiplied by `nu`. -/
def diffuse (field : Val α) (N : ℤ) (nu : α) : Except String (Val α) :=
  if N = 0 then .ok (.scalar (nu * 0))
  else
    match field with
    | .scalar _ => .error "AttributeError: int object has no attribute data"
    | .arr2 _ _ _ => .error "TypeError: memoryview subscript"
    | .arr3 _ _ _ _ => .error "TypeError: memoryview subscript"
    | .field2 H W g =>
        .ok (.arr2 H W (fun i j => nu * ((laplace2_wrap H W)^[N.toNat] g) i j))
    | .field3 K H W g =>
        if 0 < N then .error "NameError: name axes is not defined"
        else .ok (.arr3 K H W (fun k i j => nu * g k i j))

/-- The rank-2 data path of `diffuse` as executed inside `step2d`
(plasma.py lines 155-156 call it on the 2D `CenteredGrid`s, where it
cannot fail); same source lines as `diffuse`, with the scalar `0` of the
`N == 0` branch broadcast over the grid the way numpy broadcasts it into
the sums at lines 159-167. -/
def diffuse_grid2 (H W : ℕ) (g : ℕ → ℕ → α) (N : ℤ) (nu : α) : ℕ → ℕ → α :=
  if N = 0 then fun _ _ => nu * 0
  else fun i j => nu * ((laplace2_wrap H W)^[N.toNat] g) i j

/-- The rank-3 path of `diffuse` as executed inside `step3d`
(plasma.py lines 239-240 call it on the 3D `CenteredGrid`s); same source
lines as `diffuse`: the `N = 0` branch yields the broadcast scalar `0`,
a positive order hits the undefined name `axes`, a negative order runs
the loop zero times. -/
def diffuse_grid3 (g : ℕ → ℕ → ℕ → α) (N : ℤ) (nu : α) :
    Except String (ℕ → ℕ → ℕ → α) :=
  if N = 0 then .ok (fun _ _ _ => nu * 0)
  else if 0 < N then .error "NameError: name axes is not defined"
  else .ok (fun k i j => nu * g k i j)

/-- `diffuse` agrees with its rank-2 specialisation `diffuse_grid2`. -/
theorem diffuse_field2_eq (H W : ℕ) (g : ℕ → ℕ → α) (N : ℤ) (nu : α) :
    diffuse (.field2 H W g) N nu =
      .ok (if N = 0 then Val.scalar (nu * 0) else .arr2 H W (diffuse_grid2 H W g N nu)) := by
  by_cases h : N = 0 <;> simp [diffuse, diffuse_grid2, h]

/-- `diffuse` agrees with its rank-3 specialisation `diffuse_grid3`. -/
theorem diffuse_field3_eq (K H W : ℕ) (g : ℕ → ℕ → ℕ → α) (N : ℤ) (nu : α) :
    diffuse (.field3 K H W g) N nu =
      (diffuse_grid3 g N nu).map (fun r =>
        if N = 0 then Val.scalar (nu * 0) else .arr3 K H W r) := by
  by_cases h : N = 0
  · simp [diffuse, diffuse_grid3, h, Except.map]
  · by_cases h2 : 0 < N <;> simp [diffuse, diffuse_grid3, h, h2, Except.map]

end Diffuse

section FPModel

/-- Exact model of a machine float as used by numpy here: a finite value
(held exactly as a rational — no rounding is relevant to any claim), or
one of the IEEE special values `inf`, `-inf`, `nan`. -/
inductive FP : Type where
  | fin : ℚ → FP
  | inf : FP
  | ninf : FP
  | nan : FP
deriving DecidableEq

namespace FP

/-- IEEE addition on the model. -/
def add : FP → FP → FP
  | nan, _ => nan
  | _, nan => nan
  | fin a, fin b => fin (a + b)
  | fin _, inf => inf
  | fin _, ninf => ninf
  | inf, fin _ => inf
  | ninf, fin _ => ninf
  | inf, inf => inf
  | ninf, ninf => ninf
  | inf, ninf => nan
  | ninf, inf => nan

/-- IEEE negation on the model. -/
def neg : FP → FP
  | nan => nan
  | fin a => fin (-a)
  | inf => ninf
  | ninf => inf

/-- IEEE subtraction on the model. -/
def sub (x y : FP) : FP := add x (neg y)

/-- IEEE multiplication on the model; in particular `0 * ±inf = nan`. -/
def mul : FP → FP → FP
  | nan, _ => nan
  | _, nan => nan
  | fin a, fin b => fin (a * b)
  | fin a, inf => if a = 0 then nan else if 0 < a then inf else ninf
  | fin a, ninf => if a = 0 then nan else if 0 < a then ninf else inf
  | inf, fin b => if b = 0 then nan else if 0 < b then inf else ninf
  | ninf, fin b => if b = 0 then nan else if 0 < b then ninf else inf
  | inf, inf => inf
  | ninf, ninf => inf
  | inf, ninf => ninf
  | ninf, inf => ninf

/-- IEEE division on the model; in particular `1/0 = inf` (numpy emits a
warning and produces `inf`) and `0/0 = nan`. -/
def div : FP → FP → FP
  | nan, _ => nan
  | _, nan => nan
  | fin a, fin b =>
      if b = 0 then (if a = 0 then nan else if 0 < a then inf else ninf)
      else fin (a / b)
  | fin _, inf => fin 0
  | fin _, ninf => fin 0
  | inf, fin b => if 0 ≤ b then inf else ninf
  | ninf, fin b => if 0 ≤ b then ninf else inf
  | inf, inf => nan
  | inf, ninf => nan
  | ninf, inf => nan
  | ninf, ninf => nan

instance : Add FP := ⟨add⟩
instance : Neg FP := ⟨neg⟩
instance : Sub FP := ⟨sub⟩
instance : Mul FP := ⟨mul⟩
instance : Div FP := ⟨div⟩
instance : Zero FP := ⟨fin 0⟩
instance : One FP := ⟨fin 1⟩
instance : OfNat FP 2 := ⟨fin 2⟩
instance : OfNat FP 4 := ⟨fin 4⟩
instance : OfNat FP 12 := ⟨fin 12⟩

end FP

end FPModel

section Steps

/-- The `PlasmaHW` state (plasma.py lines 21-77) with 2D fields, as it
flows through `step2d`: the three dynamic centered grids, the two
diagnostic grids, the age, and the scalar `nu` (set to 1 at construction,
line 33).  Grids are `(H, W)` sample functions (batch and channel axes
elided). -/
structure PlasmaHW2 (α : Type) where
  density : ℕ → ℕ → α
  phi : ℕ → ℕ → α
  omega : ℕ → ℕ → α
  laplace_phi : ℕ → ℕ → α
  laplace_n : ℕ → ℕ → α
  age : α
  nu : α

/-- The `PlasmaHW` state with 3D fields `(K, H, W)` (axis order z, y, x),
as it flows through `step3d`. -/
structure PlasmaHW3 (α : Type) where
  density : ℕ → ℕ → ℕ → α
  phi : ℕ → ℕ → ℕ → α
  omega : ℕ → ℕ → ℕ → α
  laplace_phi : ℕ → ℕ → ℕ → α
  laplace_n : ℕ → ℕ → ℕ → α
  age : α
  nu : α

/-- `np.mean` of a 2D array: the sum of the samples over their count
(plasma.py line 138 computes `math.mean(o2d.data)`). -/
def mean2 (H W : ℕ) (g : ℕ → ℕ → ℚ) : ℚ :=
  natSum2 H W g / ((H * W : ℕ) : ℚ)

/-- The vorticity field `step2d` hands to `solve_poisson`
(plasma.py lines 137-139): `o2d -= math.mean(o2d.data)` rebinds `o2d` to
the mean-subtracted field, which is then passed to the solver (and used
by every later read of `o2d` in `step2d`). -/
def step2d_o2d (H W : ℕ) (s : PlasmaHW2 ℚ) : ℕ → ℕ → ℚ :=
  fun i j => s.omega i j - mean2 H W s.omega

/-- The vorticity field `step3d` hands to `solve_poisson`
(plasma.py lines 209, 213-215): `o2d` is the z-to-batch reshape of the
input `omega` — the identity on sample values — and the mean subtraction
(line 214) is commented out, so the solver receives the raw vorticity. -/
def step3d_o2d {α : Type} (s : PlasmaHW3 α) : ℕ → ℕ → ℕ → α :=
  s.omega

/-- `HasegawaWakatani.step2d` (plasma.py lines 126-186) over exact (ℚ)
arithmetic, on a 2D state of shape `(H, W)`.  `solver` is the external
elliptic solver (spec §6, a black box).  Mirrors the source line by line:

* line 138: `o2d -= math.mean(o2d.data)` (see `step2d_o2d`);
* line 139: `p2d, _ = solve_poisson(o2d, ...)`;
* line 141: `dzdz = self.kap / plasma.nu` (a scalar in the 2D path);
* lines 144-152: central wrap gradients of the rebound `o2d`, `p2d`, `n2d`
  (only `dy_p` and `dx_n` feed the state update);
* lines 155-156: `dif_o = diffuse(o2d, self.N)`, `dif_n = diffuse(n2d, self.N)`
  with default `nu = 1` (rank-2 path, see `diffuse_grid2`);
* lines 159-161: `o = dzdz - periodic_arakawa(p2d, o2d) + dif_o`
  (spacing `d` defaulted to 1);
* lines 163-167: `kappa = dx_n * (1 / np.sum(n2d.data))` and
  `n = dzdz - periodic_arakawa(p2d, n2d) - kappa * dy_p + dif_n`;
* lines 170-172: `p2d = euler(p2d, p2d, dt)`, `o2d = euler(o2d, o, dt)`
  (base is the mean-subtracted `o2d`), `n2d = euler(n2d, n, dt)`;
* lines 185-186: `copied_with(density=n2d, omega=o2d, phi=p2d, age=age+dt)`
  — the diagnostic fields are **not** among the replaced attributes, so
  they are carried over from the input state. -/
def step2d (H W : ℕ) (solver : (ℕ → ℕ → ℚ) → ℕ → ℕ → ℚ)
    (N : ℤ) (kap : ℚ) (s : PlasmaHW2 ℚ) (dt : ℚ) : PlasmaHW2 ℚ :=
  let o2d := step2d_o2d H W s
  let n2d := s.density
  let p2d := solver o2d
  let dzdz : ℚ := kap / s.nu
  let dy_p := gradY_wrap H p2d
  let dx_n := gradX_wrap W n2d
  let dif_o := diffuse_grid2 H W o2d N 1
  let dif_n := diffuse_grid2 H W n2d N 1
  let o : ℕ → ℕ → ℚ := fun i j =>
    dzdz - periodic_arakawa H W p2d o2d 1 i j + dif_o i j
  let kappa : ℕ → ℕ → ℚ := fun i j => dx_n i j * (1 / natSum2 H W n2d)
  let n : ℕ → ℕ → ℚ := fun i j =>
    dzdz - periodic_arakawa H W p2d n2d 1 i j - kappa i j * dy_p i j + dif_n i j
  { s with
    density := eulerG n2d n dt
    omega := eulerG o2d o dt
    phi := eulerG p2d p2d dt
    age := s.age + dt }

variable {α : Type} [Add α] [Sub α] [Mul α] [Div α] [Zero α] [One α]
variable [OfNat α 2] [OfNat α 4] [OfNat α 12]

/-- `HasegawaWakatani.step3d` (plasma.py lines 188-282) on a 3D state of
shape `(K, H, W)`.  `solver` is the external elliptic solver acting on the
z-batched 2D field (spec §6).  Mirrors the source:

* lines 208-210: z-axis to batch-axis reshape — identity on sample values;
* line 215: `p2d, _ = solve_poisson(o2d, ...)` on the **un-subtracted**
  vorticity (line 214 is commented out), see `step3d_o2d`;
* line 216: `p3d` is rebound to the reshaped solver output;
* line 218: `dzdz = (n3d - p3d).laplace(axes=[0])` — z-restricted periodic
  Laplacian of `density - phi_solved` (see `laplaceZ_wrap`);
* lines 222-227: the diagnostics are recomputed:
  `laplace_phi = math.nd.laplace(p3d, axes=[0], padding='wrap')` of the
  **solved** potential, `laplace_n` of the **input** density;
* lines 232-234: central wrap gradients per z-slice (only `dy_p`, `dx_n`
  feed the state update);
* lines 239-240: `dif_o = diffuse(o3d, self.N)`, `dif_n = diffuse(n3d, self.N)`
  — the rank-3 path of `diffuse` (see `diffuse_grid3`), which raises
  `NameError` for any positive order; the error propagates out of the step;
* lines 245-247: `o = 1/nu * dzdz - periodic_arakawa_3d(p2d, o2d) + dif_o`;
* lines 251-255: `kappa = dx_n * (1 / np.sum(n2d.data))` and
  `n = 1/nu * dzdz - periodic_arakawa_3d(p2d, n2d) - kappa * dy_p + dif_n`;
* lines 259-261: `p3d = euler(p3d, p2d_reshaped, dt)` — both arguments are
  the solved potential — `o3d = euler(o3d, o, dt)`, `n3d = euler(n3d, n, dt)`;
* lines 280-282: `copied_with(density=n3d, omega=o3d, phi=p3d,
  laplace_phi=laplace_phi, laplace_n=laplace_n, age=age+dt)`. -/
def step3d (K H W : ℕ) (solver : (ℕ → ℕ → ℕ → α) → ℕ → ℕ → ℕ → α)
    (N : ℤ) (s : PlasmaHW3 α) (dt : α) : Except String (PlasmaHW3 α) :=
  let o2d := step3d_o2d s
  let n2d := s.density
  let p2d := solver o2d
  let p3d := p2d
  let dzdz : ℕ → ℕ → ℕ → α :=
    laplaceZ_wrap K (fun k i j => s.density k i j - p3d k i j)
  let lap_phi := laplaceZ_wrap K p3d
  let lap_n := laplaceZ_wrap K s.density
  let dy_p : ℕ → ℕ → ℕ → α := fun k => gradY_wrap H (p2d k)
  let dx_n : ℕ → ℕ → ℕ → α := fun k => gradX_wrap W (n2d k)
  match diffuse_grid3 s.omega N 1, diffuse_grid3 s.density N 1 with
  | .error e, _ => .error e
  | .ok _, .error e => .error e
  | .ok dif_o, .ok dif_n =>
    let o : ℕ → ℕ → ℕ → α := fun k i j =>
      1 / s.nu * dzdz k i j - periodic_arakawa_3d K H W p2d o2d 1 k i j + dif_o k i j
    let kappa : ℕ → ℕ → ℕ → α := fun k i j =>
      dx_n k i j * (1 / natSum3 K H W n2d)
    let n : ℕ → ℕ → ℕ → α := fun k i j =>
      1 / s.nu * dzdz k i j - periodic_arakawa_3d K H W p2d n2d 1 k i j
        - kappa k i j * dy_p k i j + dif_n k i j
    .ok { density := eulerG3 n2d n dt
          omega := eulerG3 s.omega o dt
          phi := eulerG3 p3d p2d dt
          laplace_phi := lap_phi
          laplace_n := lap_n
          age := s.age + dt
          nu := s.nu }

/-- `HasegawaWakatani.step` (plasma.py lines 120-124):
`if self.kap: return self.step2d(...) else: return self.step3d(...)`.
Python float truthiness makes the test `kap ≠ 0`.  A 3D state reaches
`step2d` only when `kap ≠ 0`, a configuration no claim exercises; that
branch is out of the modelled behaviour (the 2D path is modelled on 2D
states as `step2d`). -/
def step (K H W : ℕ) [DecidableEq α]
    (solver : (ℕ → ℕ → ℕ → α) → ℕ → ℕ → ℕ → α)
    (N : ℤ) (kap : α) (s : PlasmaHW3 α) (dt : α) : Except String (PlasmaHW3 α) :=
  if kap = 0 then step3d K H W solver N s dt
  else .error "2D path on a 3D state: outside the modelled configurations"

end Steps

section ConcreteInputs

/-- A concrete grid from a row-major list of rows (zero outside). -/
def gridOfList (l : List (List ℚ)) : ℕ → ℕ → ℚ :=
  fun i j => ((l[i]?.getD [])[j]?).getD 0

/-- A concrete 3×3 vorticity sample used in counterexamples. -/
def zetaC : ℕ → ℕ → ℚ := gridOfList [[1, 2, 0], [0, 1, 0], [0, 0, 3]]

/-- A concrete 3×3 potential sample used in counterexamples. -/
def psiC : ℕ → ℕ → ℚ := gridOfList [[0, 1, 0], [2, 0, 1], [0, 1, 2]]

end ConcreteInputs

section SpecSide

/-- The spec's exact Arakawa stencil (spec §4.2, "Exact stencil"), written
at a centre cell `(r, c)` with the offsets of the spec text; this is the
spec-side definition a refinement claim compares the code against. -/
def arakawaStencilSpec {α : Type} [Add α] [Sub α] [Mul α]
    (zeta psi : ℕ → ℕ → α) (r c : ℕ) : α :=
  zeta (r+1) c * (psi r (c+1) - psi r (c-1) + psi (r+1) (c+1) - psi (r+1) (c-1))
    - zeta (r-1) c * (psi r (c+1) - psi r (c-1) + psi (r-1) (c+1) - psi (r-1) (c-1))
    - zeta r (c+1) * (psi (r+1) c - psi (r-1) c + psi (r+1) (c+1) - psi (r-1) (c+1))
    + zeta r (c-1) * (psi (r+1) c - psi (r-1) c + psi (r+1) (c-1) - psi (r-1) (c-1))
    + zeta (r+1) (c-1) * (psi (r+1) c - psi r (c-1))
    + zeta (r+1) (c+1) * (psi r (c+1) - psi (r+1) c)
    - zeta (r-1) (c+1) * (psi r (c+1) - psi (r-1) c)
    - zeta (r-1) (c-1) * (psi (r-1) c - psi r (c-1))

end SpecSide

/-- C6: for all same-shaped 2D fields `a`, `b` and any spacing `d`, the
periodic Arakawa bracket satisfies `bracket(a,b) = -bracket(b,a)` and
`bracket(a,a) = 0` at every cell, in exact arithmetic. -/
theorem claim_C6_bracket_antisymmetry (H W : ℕ) (a b : ℕ → ℕ → ℚ) (d : ℚ) :
    (∀ i j, periodic_arakawa H W a b d i j = - periodic_arakawa H W b a d i j)
      ∧ (∀ i j, periodic_arakawa H W a a d i j = 0) := by
  constructor <;> intro i j <;>
    simp only [periodic_arakawa, arakawa_vec, periodic_padding] <;> ring

/-- C5: on already-padded `(H+2, W+2)` inputs, each entry `(i, j)` of
`arakawa_vec` equals the spec's 8-term stencil centred at padded cell
`(i+1, j+1)` divided by `4·d²`; entries with `i < H`, `j < W` read the
inputs only inside the padded `(H+2) × (W+2)` window (so the map is
well-defined as an `(H+2,W+2) → (H,W)` operation); and `periodic_arakawa`
on unpadded `(H, W)` inputs is `arakawa_vec` of their wrap paddings, hence
entrywise the same stencil of the padded fields. -/
theorem claim_C5_arakawa_vec_stencil (H W : ℕ) (zeta psi zeta' psi' : ℕ → ℕ → ℚ)
    (d : ℚ) :
    (∀ i j, arakawa_vec zeta psi d i j
        = arakawaStencilSpec zeta psi (i+1) (j+1) / (4 * (d * d)))
    ∧ ((∀ a, a < H + 2 → ∀ b, b < W + 2 → zeta a b = zeta' a b) →
       (∀ a, a < H + 2 → ∀ b, b < W + 2 → psi a b = psi' a b) →
       ∀ i, i < H → ∀ j, j < W →
         arakawa_vec zeta psi d i j = arakawa_vec zeta' psi' d i j)
    ∧ (∀ i j, periodic_arakawa H W zeta psi d i j
        = arakawaStencilSpec (periodic_padding H W zeta) (periodic_padding H W psi)
            (i+1) (j+1) / (4 * (d * d))) := by
  refine ⟨fun i j => ?_, fun hz hp i hi j hj => ?_, fun i j => ?_⟩
  · simp only [arakawa_vec, arakawaStencilSpec, Nat.add_sub_cancel]
  · simp only [arakawa_vec,
      hz (i+2) (by omega) (j+1) (by omega), hz i (by omega) (j+1) (by omega),
      hz (i+1) (by omega) (j+2) (by omega), hz (i+1) (by omega) j (by omega),
      hz (i+2) (by omega) j (by omega), hz (i+2) (by omega) (j+2) (by omega),
      hz i (by omega) (j+2) (by omega), hz i (by omega) j (by omega),
      hp (i+1) (by omega) (j+2) (by omega), hp (i+1) (by omega) j (by omega),
      hp (i+2) (by omega) (j+2) (by omega), hp (i+2) (by omega) j (by omega),
      hp i (by omega) (j+2) (by omega), hp i (by omega) j (by omega),
      hp (i+2) (by omega) (j+1) (by omega), hp i (by omega) (j+1) (by omega)]
  · simp only [periodic_arakawa, arakawa_vec, arakawaStencilSpec, Nat.add_sub_cancel]

/-- C5 witness. -/
theorem claim_C5_arakawa_vec_stencil_witness :
    arakawa_vec zetaC psiC 1 0 0 = arakawaStencilSpec zetaC psiC 1 1 / (4 * (1 * 1))
      ∧ arakawa_vec zetaC psiC 1 0 0 = arakawa_vec zetaC psiC 1 0 0 := by
  exact ⟨(claim_C5_arakawa_vec_stencil 3 3 zetaC psiC zetaC psiC 1).1 0 0,
    (claim_C5_arakawa_vec_stencil 3 3 zetaC psiC zetaC psiC 1).2.1
      (fun a _ b _ => rfl) (fun a _ b _ => rfl) 0 (by decide) 0 (by decide)⟩

/-- C1 (counterexample): with `d = 1`, the batched bracket does **not**
equal the slice-wise 2D bracket — on a single-slice stack it is one third
of it (it divides by `12·d²` instead of `4·d²`). -/
theorem claim_C1_counterexample :
    periodic_arakawa_3d 1 3 3 (fun _ => zetaC) (fun _ => psiC) 1 0 0 0
      ≠ periodic_arakawa 3 3 zetaC psiC 1 0 0 := by
  norm_num [periodic_arakawa_3d, arakawa_3d, arakawa_stencil, periodic_padding3,
    periodic_arakawa, arakawa_vec, periodic_padding, zetaC, psiC, gridOfList]

/-- C1 (amended): for every stack of `K` same-shaped `(H, W)` slices and
every spacing argument `d`, each in-range entry of
`periodic_arakawa_3d` equals **one third** of the 2D `periodic_arakawa` of
the corresponding slice taken at spacing 1: the 3D variant divides by
`12·d²` where the 2D variant divides by `4·d²`, and it does not forward
its `d` argument to `arakawa_3d` (which therefore uses its default 1). -/
theorem claim_C1_amended_third (K H W : ℕ) (zeta psi : ℕ → ℕ → ℕ → ℚ) (d : ℚ)
    (k i j : ℕ) (hk : k < K) (hi : i < H) (hj : j < W) :
    periodic_arakawa_3d K H W zeta psi d k i j
      = periodic_arakawa H W (zeta k) (psi k) 1 i j / 3 := by
  have hcond : 1 ≤ i + 1 ∧ i + 1 ≤ H ∧ 1 ≤ j + 1 ∧ j + 1 ≤ W := by omega
  have ek : k + 1 + K - 1 = k + K := by omega
  simp only [periodic_arakawa_3d, arakawa_3d, arakawa_stencil, if_pos hcond,
    periodic_padding3, periodic_arakawa, arakawa_vec, periodic_padding,
    Nat.add_sub_cancel, ek, Nat.add_mod_right, Nat.mod_eq_of_lt hk]
  ring

/-- A concrete 2×2 field with nonzero Laplacian, used in counterexamples. -/
def onehotC : ℕ → ℕ → ℚ := gridOfList [[1, 0], [0, 0]]

/-- C3: evaluating `diffuse` at a rank-3 field with order `N = 1` does not
apply the perpendicular Laplacian — it raises `NameError` (the source's
rank-3 branch reads the undefined name `axes`, plasma.py line 311). -/
theorem claim_C3_diffuse_rank3_nameerror :
    diffuse (Val.field3 1 2 2 (fun _ _ _ => (0 : ℚ))) 1 1
      = .error "NameError: name axes is not defined" := by
  rfl

/-- C7 (counterexample): with `f` the 2×2 one-hot field, `N1 = 1`,
`N2 = 0`, composing `diffuse` (feeding its output value back in, as the
claim's `diffuse(diffuse(f, N1), N2)` does) yields the scalar `0`, while
`diffuse(f, N1+N2)` is a raw array whose `(0,0)` entry, the wrap-padded
Laplacian of the one-hot field, is `-4 ≠ 0`; the two are not equal. -/
theorem claim_C7_counterexample :
    diffuse (Val.field2 2 2 onehotC) (1 + 0) 1
        ≠ (diffuse (Val.field2 2 2 onehotC) 1 1).bind (fun v => diffuse v 0 1)
      ∧ (diffuse (Val.field2 2 2 onehotC) 1 1).bind (fun v => diffuse v 0 1)
        = .ok (.scalar 0)
      ∧ laplace2_wrap 2 2 onehotC 0 0 = -4 := by
  refine ⟨fun h => ?_, ?_, ?_⟩
  · simp [diffuse, Except.bind] at h
  · simp only [diffuse, Except.bind]
    norm_num
  · norm_num [laplace2_wrap, onehotC, gridOfList]

/-- C7 (amended): the underlying repeated-Laplacian iteration does
compose — `N1 + N2` sequential applications equal `N2` applications after
`N1` applications — and `diffuse(f, 0)` returns the scalar zero (which
numpy broadcasts to the zero field in the time-step sums); but `diffuse`
itself does not compose, because its output is a raw array or scalar, not
a field: a second `diffuse` with order 0 collapses it to the scalar zero,
and with positive order fails on the missing `.data` grid access. -/
theorem claim_C7_amended (H W : ℕ) (g : ℕ → ℕ → ℚ) (N1 N2 : ℕ) (nu : ℚ) :
    (laplace2_wrap H W)^[N1 + N2] g
        = (laplace2_wrap H W)^[N2] ((laplace2_wrap H W)^[N1] g)
      ∧ (∀ f : Val ℚ, diffuse f 0 nu = .ok (.scalar (nu * 0)))
      ∧ (∀ H2 W2 a, diffuse (Val.arr2 H2 W2 a) 1 nu
          = .error "TypeError: memoryview subscript") := by
  refine ⟨?_, fun f => rfl, fun H2 W2 a => rfl⟩
  rw [Nat.add_comm, Function.iterate_add_apply]

/-- C8 (counterexample): `diffuse` with order `N = -1` does **not** fail:
`range(-1)` is empty, so it returns the (nu-scaled) field data unchanged
as an ordinary value. -/
theorem claim_C8_counterexample :
    diffuse (Val.field2 2 2 onehotC) (-1) 1
      = .ok (.arr2 2 2 (fun i j => 1 * onehotC i j)) := by
  rfl

/-- C8 (amended): for every negative order `N`, `diffuse` rejects nothing:
the Laplacian loop body runs zero times and the result is `nu` times the
field's unchanged raw data. -/
theorem claim_C8_amended (H W : ℕ) (g : ℕ → ℕ → ℚ) (N : ℤ) (nu : ℚ)
    (h : N < 0) :
    diffuse (Val.field2 H W g) N nu = .ok (.arr2 H W (fun i j => nu * g i j)) := by
  have h0 : ¬ N = 0 := by omega
  have ht : N.toNat = 0 := by omega
  simp [diffuse, h0, ht]

/-- C8 amended, witness. -/
theorem claim_C8_amended_witness :
    diffuse (Val.field2 2 2 onehotC) (-2) (1 : ℚ)
      = .ok (.arr2 2 2 (fun i j => 1 * onehotC i j)) :=
  claim_C8_amended 2 2 onehotC (-2) 1 (by norm_num)

/-- C1 amended, witness. -/
theorem claim_C1_amended_third_witness :
    periodic_arakawa_3d 1 3 3 (fun _ => zetaC) (fun _ => psiC) 1 0 0 0
      = periodic_arakawa 3 3 zetaC psiC 1 0 0 / 3 :=
  claim_C1_amended_third 1 3 3 (fun _ => zetaC) (fun _ => psiC) 1 0 0 0
    (by decide) (by decide) (by decide)

section MeanLemmas

/-- Subtracting a constant from every summand lowers a `natSum` by the
count times the constant. -/
theorem natSum_sub_const (f : ℕ → ℚ) (c : ℚ) (n : ℕ) :
    natSum (fun i => f i - c) n = natSum f n - n * c := by
  induction n with
  | zero => simp [natSum]
  | succ n ih =>
      simp only [natSum, ih]
      push_cast
      ring

/-- 2D version of `natSum_sub_const`. -/
theorem natSum2_sub_const (H W : ℕ) (g : ℕ → ℕ → ℚ) (c : ℚ) :
    natSum2 H W (fun i j => g i j - c) = natSum2 H W g - (H * W : ℕ) * c := by
  unfold natSum2
  have e : ∀ i, natSum (fun j => g i j - c) W = natSum (g i) W - W * c :=
    fun i => natSum_sub_const (g i) c W
  calc natSum (fun i => natSum (fun j => g i j - c) W) H
      = natSum (fun i => natSum (g i) W - W * c) H := by
        simp only [e]
    _ = natSum (fun i => natSum (g i) W) H - H * (W * c) :=
        natSum_sub_const (fun i => natSum (g i) W) (W * c) H
    _ = natSum (fun i => natSum (g i) W) H - (H * W : ℕ) * c := by
        push_cast
        ring

/-- Subtracting the mean of a grid yields a zero-mean grid (in exact
arithmetic; an empty grid has mean `0/0 = 0` in the ℚ model). -/
theorem mean2_sub_mean (H W : ℕ) (g : ℕ → ℕ → ℚ) :
    mean2 H W (fun i j => g i j - mean2 H W g) = 0 := by
  unfold mean2
  rw [natSum2_sub_const]
  rcases eq_or_ne ((H * W : ℕ) : ℚ) 0 with h | h
  · simp [h]
  · rw [mul_div_cancel₀ _ h]
    simp

end MeanLemmas

/-- C2: in the 2D path the field handed to the Poisson solver is the
vorticity minus its spatial mean, and therefore has zero spatial mean; in
the 3D path the field handed to the solver is the input vorticity itself
(values unchanged by the z-to-batch reshape) — no mean subtraction. -/
theorem claim_C2_mean_subtraction (H W : ℕ) (s2 : PlasmaHW2 ℚ)
    (s3 : PlasmaHW3 ℚ) :
    mean2 H W (step2d_o2d H W s2) = 0 ∧ step3d_o2d s3 = s3.omega :=
  ⟨mean2_sub_mean H W s2.omega, rfl⟩

/-- C10: for every solver, state and `dt`, the potential stored by the 2D
step is `(1 + dt)` times the potential the solver returned (line 170
integrates the solved potential with itself as its own derivative). -/
theorem claim_C10_phi_self_euler (H W : ℕ)
    (solver : (ℕ → ℕ → ℚ) → ℕ → ℕ → ℚ) (N : ℤ) (kap : ℚ)
    (s : PlasmaHW2 ℚ) (dt : ℚ) :
    (step2d H W solver N kap s dt).phi
      = fun i j => (1 + dt) * solver (step2d_o2d H W s) i j := by
  funext i j
  show solver (step2d_o2d H W s) i j + solver (step2d_o2d H W s) i j * dt = _
  ring

/-- A concrete 2D state whose diagnostic `laplace_phi` is the constant 5
(all dynamic fields zero). -/
def state2_diag5 : PlasmaHW2 ℚ :=
  { density := fun _ _ => 0, phi := fun _ _ => 0, omega := fun _ _ => 0
    laplace_phi := fun _ _ => 5, laplace_n := fun _ _ => 0
    age := 0, nu := 1 }

/-- The same concrete 2D state with diagnostic `laplace_phi` constant 7. -/
def state2_diag7 : PlasmaHW2 ℚ :=
  { state2_diag5 with laplace_phi := fun _ _ => 7 }

/-- C9 (counterexample): the 2D step does not recompute the diagnostics —
two input states that agree on every dynamic field but carry different
`laplace_phi` junk values produce steps whose output `laplace_phi` still
differ (5 vs 7): the 2D `copied_with` (plasma.py lines 185-186) does not
mention the diagnostic fields, so they pass through unchanged instead of
being recomputed from that step's fields. -/
theorem claim_C9_counterexample :
    (step2d 1 1 (fun g => g) 2 1 state2_diag5 1).laplace_phi 0 0 = 5
      ∧ (step2d 1 1 (fun g => g) 2 1 state2_diag7 1).laplace_phi 0 0 = 7
      ∧ state2_diag5.density = state2_diag7.density
      ∧ state2_diag5.omega = state2_diag7.omega
      ∧ state2_diag5.phi = state2_diag7.phi :=
  ⟨rfl, rfl, rfl, rfl, rfl⟩

/-- C9 (amended): the 2D step passes the input diagnostics through
unchanged; the 3D step (whenever it returns at all) stores
`laplace_phi` = the z-restricted periodic Laplacian of the freshly solved
potential and `laplace_n` = the z-restricted periodic Laplacian of the
input density; and in both paths the diagnostics have no feedback: the
computed `density`, `omega`, `phi` (indeed, for the 3D path the whole
result) are unchanged under arbitrary replacement of the input
diagnostics. -/
theorem claim_C9_amended (H W K : ℕ)
    (solver2 : (ℕ → ℕ → ℚ) → ℕ → ℕ → ℚ)
    (solver3 : (ℕ → ℕ → ℕ → ℚ) → ℕ → ℕ → ℕ → ℚ)
    (N : ℤ) (kap dt : ℚ) (s2 : PlasmaHW2 ℚ) (s3 : PlasmaHW3 ℚ)
    (lp ln : ℕ → ℕ → ℚ) (lp3 ln3 : ℕ → ℕ → ℕ → ℚ) :
    (step2d H W solver2 N kap s2 dt).laplace_phi = s2.laplace_phi
    ∧ (step2d H W solver2 N kap s2 dt).laplace_n = s2.laplace_n
    ∧ (step2d H W solver2 N kap
        { s2 with laplace_phi := lp, laplace_n := ln } dt).density
        = (step2d H W solver2 N kap s2 dt).density
    ∧ (step2d H W solver2 N kap
        { s2 with laplace_phi := lp, laplace_n := ln } dt).omega
        = (step2d H W solver2 N kap s2 dt).omega
    ∧ (step2d H W solver2 N kap
        { s2 with laplace_phi := lp, laplace_n := ln } dt).phi
        = (step2d H W solver2 N kap s2 dt).phi
    ∧ (step3d K H W solver3 N s3 dt).map (fun r => r.laplace_phi)
        = (step3d K H W solver3 N s3 dt).map
            (fun _ => laplaceZ_wrap K (solver3 (step3d_o2d s3)))
    ∧ (step3d K H W solver3 N s3 dt).map (fun r => r.laplace_n)
        = (step3d K H W solver3 N s3 dt).map
            (fun _ => laplaceZ_wrap K s3.density)
    ∧ step3d K H W solver3 N
        { s3 with laplace_phi := lp3, laplace_n := ln3 } dt
        = step3d K H W solver3 N s3 dt := by
  refine ⟨rfl, rfl, rfl, rfl, rfl, ?_, ?_, rfl⟩ <;>
  · rcases hdo : diffuse_grid3 (α := ℚ) s3.omega N 1 with e | vo <;>
      rcases hdn : diffuse_grid3 (α := ℚ) s3.density N 1 with e2 | vn <;>
      simp [step3d, hdo, hdn, Except.map]

namespace FP

@[simp] theorem zero_def : (0 : FP) = fin 0 := rfl

@[simp] theorem one_def : (1 : FP) = fin 1 := rfl

@[simp] theorem two_def : (2 : FP) = fin 2 := rfl

@[simp] theorem four_def : (4 : FP) = fin 4 := rfl

@[simp] theorem twelve_def : (12 : FP) = fin 12 := rfl

@[simp] theorem fin_add_fin (a b : ℚ) : fin a + fin b = fin (a + b) := rfl

@[simp] theorem fin_mul_fin (a b : ℚ) : fin a * fin b = fin (a * b) := rfl

/-- Finite subtraction is exact. -/
@[simp] theorem fin_sub_fin (a b : ℚ) : fin a - fin b = fin (a - b) := by
  show add (fin a) (neg (fin b)) = _
  simp [add, neg, sub_eq_add_neg]

@[simp] theorem fin_div_one (a : ℚ) : fin a / fin 1 = fin a := by
  show div (fin a) (fin 1) = _
  simp [div]

@[simp] theorem fin_div_two (a : ℚ) : fin a / fin 2 = fin (a / 2) := by
  show div (fin a) (fin 2) = _
  norm_num [div]

@[simp] theorem fin_div_twelve (a : ℚ) : fin a / fin 12 = fin (a / 12) := by
  show div (fin a) (fin 12) = _
  norm_num [div]

/-- The IEEE rule numpy applies to `1 / np.sum(zero density)`: a positive
finite value over `+0.0` is `inf` (with a runtime warning, not an error). -/
@[simp] theorem one_div_zero_fp : fin 1 / fin 0 = inf := by
  show div (fin 1) (fin 0) = _
  norm_num [div]

/-- The IEEE rule behind the degenerate `kappa`: `0 * inf = nan`. -/
@[simp] theorem zero_mul_inf : fin 0 * inf = nan := by
  show mul (fin 0) inf = _
  simp [mul]

@[simp] theorem nan_mul (x : FP) : nan * x = nan := by cases x <;> rfl

@[simp] theorem mul_nan (x : FP) : x * nan = nan := by cases x <;> rfl

@[simp] theorem nan_add (x : FP) : nan + x = nan := by cases x <;> rfl

@[simp] theorem add_nan (x : FP) : x + nan = nan := by cases x <;> rfl

@[simp] theorem sub_nan (x : FP) : x - nan = nan := by cases x <;> rfl

@[simp] theorem nan_sub (x : FP) : nan - x = nan := by cases x <;> rfl

end FP

/-- The all-zero plasma state of shape `1 × 1 × 1` (density, potential,
vorticity and diagnostics identically zero, `age = 0`, `nu = 1` as set by
the `PlasmaHW` constructor). -/
def zeroStateFP : PlasmaHW3 FP :=
  { density := fun _ _ _ => 0, phi := fun _ _ _ => 0, omega := fun _ _ _ => 0
    laplace_phi := fun _ _ _ => 0, laplace_n := fun _ _ _ => 0
    age := 0, nu := 1 }

/-- C4: the all-zero state with `kap = 0` is **not** mapped to zero fields
by one `step` call.  With the constructor default `N = 2` (indeed any
`N ≥ 1`) the dispatched 3D step raises `NameError` inside `diffuse` before
returning anything, for every solver and every `dt`; and even with
diffusion disabled (`N = 0`, identity solver, `dt = 1`) the returned
density is `nan` — the drift normalization divides by the grid-wide
density sum `0`, giving `kappa = 0 · inf = nan` — while omega and phi do
come back zero. -/
theorem claim_C4_zero_state_not_fixed :
    (∀ (solver : (ℕ → ℕ → ℕ → FP) → ℕ → ℕ → ℕ → FP) (dt : FP),
        step 1 1 1 solver 2 (0 : FP) zeroStateFP dt
          = .error "NameError: name axes is not defined")
      ∧ (step 1 1 1 (fun g => g) 0 (0 : FP) zeroStateFP 1).map
          (fun r => r.density 0 0 0) = .ok FP.nan
      ∧ (step 1 1 1 (fun g => g) 0 (0 : FP) zeroStateFP 1).map
          (fun r => r.omega 0 0 0) = .ok (FP.fin 0)
      ∧ (step 1 1 1 (fun g => g) 0 (0 : FP) zeroStateFP 1).map
          (fun r => r.phi 0 0 0) = .ok (FP.fin 0) := by
  refine ⟨fun solver dt => rfl, ?_, ?_, ?_⟩ <;>
    simp [step, step3d, diffuse_grid3, step3d_o2d, zeroStateFP, eulerG3,
      laplaceZ_wrap, gradY_wrap, gradX_wrap, periodic_arakawa_3d, arakawa_3d,
      arakawa_stencil, periodic_padding3, natSum3, natSum2, natSum, Except.map]

